import Mathlib

/-!
Verification of the observation normalization and deduplication pipeline of
`diwise/api-rec`.

Embedding conventions:
* Go `float64` values are embedded as exact rationals (`ℚ`); `math.Round`
  (round half away from zero) becomes `goRound` below.
* Go `time.Time` values are embedded as integer seconds (`Int`); the
  one-minute dedup window (`-1 * time.Minute`) becomes the constant 60.
* Go nil-able pointer fields (`*float64`, `*string`, `*bool`, optional
  structs) are embedded as `Option`.
* A Go runtime panic (out-of-range index, nil dereference) is the
  `DecodeResult.panic` outcome.
* The Postgres `observations` table is a `List ObservationRow`; the pgx
  calls in `AddObservation` run on `db.pool` (each statement autocommitted,
  read-committed), which the model reflects by threading the committed row
  list through the loop and keeping already-inserted rows on failure.
-/

namespace ApiRec

/-- `math.Round` from Go's standard library: round half away from zero,
embedded on exact rationals. -/
def goRound (q : ℚ) : Int :=
  if 0 ≤ q then ⌊q + 1/2⌋ else -⌊-q + 1/2⌋

/-- `mapFloatValue` (application package): nil passes through, otherwise
`math.Round(*v * 10^d) / 10^d`. -/
def mapFloatValue (v : Option ℚ) (d : Nat) : Option ℚ :=
  match v with
  | none => none
  | some x =>
    let unit : ℚ := 10 ^ d
    some ((goRound (x * unit) : ℚ) / unit)

/-- `mapValueString`: empty string is absence. -/
def mapValueString (vs : String) : Option String :=
  if vs = "" then none else some vs

/-- `mapTime`: `time.Unix(int64(bt), 0).UTC()` — Go's float-to-int64
conversion truncates toward zero. -/
def mapTime (bt : ℚ) : Int :=
  if 0 ≤ bt then ⌊bt⌋ else ⌈bt⌉

/-! ### lwm2m vendor codes (application package constants) -/

def lwm2mUrn : String := "urn:oma:lwm2m:ext:"

def AirQuality : String := lwm2mUrn ++ "3428"
def Conductivity : String := lwm2mUrn ++ "3327"
def DigitalInput : String := lwm2mUrn ++ "3200"
def Distance : String := lwm2mUrn ++ "3330"
def Energy : String := lwm2mUrn ++ "3331"
def Humidity : String := lwm2mUrn ++ "3304"
def Illuminance : String := lwm2mUrn ++ "3301"
def Power : String := lwm2mUrn ++ "3328"
def Presence : String := lwm2mUrn ++ "3302"
def Pressure : String := lwm2mUrn ++ "3323"
def Temperature : String := lwm2mUrn ++ "3303"
def Watermeter : String := lwm2mUrn ++ "3424"

/-- ASCII case folding of one character (`strings.ToLower` restricted to
ASCII; the lwm2m codes it is compared against are all ASCII). -/
def asciiLower (c : Char) : Char :=
  if 65 ≤ c.toNat ∧ c.toNat ≤ 90 then Char.ofNat (c.toNat + 32) else c

/-- ASCII case folding of a string. -/
def strToLower (s : String) : String :=
  String.mk (s.data.map asciiLower)

/-- `mapQuantityKind`: the Go function receives the whole `MessageAccepted`
and reads `Pack[0].BaseName` (the vendor code) and, in the air-quality
branch, `Pack[1].Name` (the disambiguator); those two fields are its
parameters here. `strings.ToLower` agrees with `strToLower` on ASCII. -/
def mapQuantityKind (baseName name1 : String) : String :=
  let lowered := strToLower baseName
  if lowered = AirQuality then
    if name1 = "17" then "Concentration" else "diwise:AirQuality"
  else if lowered = Conductivity then "Conductivity"
  else if lowered = DigitalInput then "diwise:DigitalInput"
  else if lowered = Distance then "Distance"
  else if lowered = Energy then "Energy"
  else if lowered = Power then "Power"
  else if lowered = Presence then "diwise:Presence"
  else if lowered = Pressure then "Pressure"
  else if lowered = Temperature then "Temperature"
  else if lowered = Watermeter then "Volume"
  else if lowered = Humidity then "RelativeHumidity"
  else if lowered = Illuminance then "Illuminance"
  else baseName

/-! ### Canonical observation records (database/models.go) -/

structure Observation where
  observationTime : Int
  value : Option ℚ
  valueString : Option String
  valueBoolean : Option Bool
  quantityKind : String
  sensorId : String
deriving DecidableEq, Repr

structure SensorObservation where
  format : String
  deviceID : String
  observations : List Observation
deriving DecidableEq, Repr

/-- Outcome of a decoder: Go's `(SensorObservation, bool)` return, with
`panic` for a runtime fault (index out of range / nil dereference). -/
inductive DecodeResult where
  | panic
  | rejected
  | accepted (so : SensorObservation)
deriving DecidableEq, Repr

/-! ### Envelope A: `message.accepted` -/

/-- The senml record fields the decoder reads. -/
structure SenmlRecord where
  baseName : String
  baseTime : ℚ
  name : String
  stringValue : String
  value : Option ℚ
  boolValue : Option Bool
deriving DecidableEq, Repr

structure MessageAccepted where
  sensorID : String
  pack : List SenmlRecord
deriving DecidableEq, Repr

/-- `MessageAccepted.MapToObservation`. The Go body indexes `m.Pack[0]`
and `m.Pack[1]` unconditionally, so a pack with fewer than two records
faults before the `sensorId == "" || quantityKind == ""` rejection check
is ever reached. -/
def MessageAccepted.MapToObservation (m : MessageAccepted) : DecodeResult :=
  match m.pack with
  | r0 :: r1 :: _ =>
    let sensorId := r0.stringValue
    let observationTime := mapTime r0.baseTime
    let quantityKind := mapQuantityKind r0.baseName r1.name
    let value :=
      if quantityKind = "Temperature" then mapFloatValue r1.value 1
      else mapFloatValue r1.value 2
    let valueString := mapValueString r1.stringValue
    let valueBoolean := r1.boolValue
    if sensorId = "" ∨ quantityKind = "" then .rejected
    else .accepted
      { format := "rec3.1.1"
        deviceID := m.sensorID
        observations := [
          { sensorId := sensorId
            observationTime := observationTime
            quantityKind := quantityKind
            value := value
            valueString := valueString
            valueBoolean := valueBoolean }] }
  | _ => .panic

/-- The list of numeric values carried by the observations of an accepted
decode, `none` for a rejected or faulting decode. -/
def DecodeResult.emittedValues : DecodeResult → Option (List (Option ℚ))
  | .accepted so => some (so.observations.map Observation.value)
  | _ => none

/-! ### Envelope B: `function.updated` -/

structure CounterData where
  counter : Int
  state : Bool
deriving DecidableEq, Repr

structure LevelData where
  current : ℚ
  percent : Option ℚ
  offset : Option ℚ
deriving DecidableEq, Repr

structure PresenceData where
  state : Bool
deriving DecidableEq, Repr

/-- `Duration` is Go's nanosecond count. -/
structure TimerData where
  startTime : Int
  endTime : Option Int
  duration : Option Int
  state : Bool
deriving DecidableEq, Repr

structure WaterQualityData where
  temperature : ℚ
  timestamp : Int
deriving DecidableEq, Repr

structure BuildingData where
  energy : ℚ
  power : ℚ
deriving DecidableEq, Repr

structure FunctionUpdated where
  id : String
  ftype : String
  subType : String
  counter : Option CounterData
  level : Option LevelData
  presence : Option PresenceData
  timer : Option TimerData
  waterQuality : Option WaterQualityData
  building : Option BuildingData
deriving DecidableEq, Repr

/-- `FunctionUpdated.MapToObservation`. `now` is the single
`ts := time.Now().UTC()` sampled once at the top of the Go function,
before the switch; every wall-clock-timed branch reuses it. Nil variant
pointers are dereferenced unguarded in Go, hence `panic` on `none`. -/
def FunctionUpdated.MapToObservation (now : Int) (m : FunctionUpdated) : DecodeResult :=
  let deviceID := m.ftype ++ ":" ++ m.subType ++ ":" ++ m.id
  let mk : List Observation → DecodeResult := fun obs =>
    .accepted { format := "rec3.1.1", deviceID := deviceID, observations := obs }
  if m.ftype = "building" then
    match m.building with
    | none => .panic
    | some b => mk [
        { observationTime := now, value := some b.energy, valueString := none
          valueBoolean := none, quantityKind := "Energy", sensorId := m.id },
        { observationTime := now, value := some b.power, valueString := none
          valueBoolean := none, quantityKind := "Power", sensorId := m.id }]
  else if m.ftype = "counter" then
    match m.counter with
    | none => .panic
    | some c => mk [
        { observationTime := now, value := some ((c.counter : ℚ)), valueString := none
          valueBoolean := some c.state, quantityKind := "diwise:Level", sensorId := m.id }]
  else if m.ftype = "level" then
    match m.level with
    | none => .panic
    | some l => mk [
        { observationTime := now, value := some l.current, valueString := none
          valueBoolean := none, quantityKind := "diwise:Level", sensorId := m.id }]
  else if m.ftype = "presence" then
    match m.presence with
    | none => .panic
    | some p =>
      if m.subType = "lifebuoy" then mk [
        { observationTime := now, value := none, valueString := none
          valueBoolean := some p.state, quantityKind := "diwise:Lifebuoy", sensorId := m.id }]
      else mk [
        { observationTime := now, value := none, valueString := none
          valueBoolean := some p.state, quantityKind := "diwise:Presence", sensorId := m.id }]
  else if m.ftype = "timer" then
    match m.timer with
    | none => .panic
    | some t =>
      match t.duration with
      | none => .panic
      | some dur =>
        match t.endTime with
        | none => .panic
        | some et => mk [
            { observationTime := et, value := some ((dur : ℚ) / 1000000000)
              valueString := none, valueBoolean := some t.state
              quantityKind := "diwise:Timer", sensorId := m.id }]
  else if m.ftype = "waterquality" then
    match m.waterQuality with
    | none => .panic
    | some w => mk [
        { observationTime := w.timestamp, value := mapFloatValue (some w.temperature) 1
          valueString := none, valueBoolean := none
          quantityKind := "Temperature", sensorId := m.id }]
  else .rejected

/-! ### The observation store and `AddObservation` (database/database.go) -/

/-- A committed row of the Postgres `observations` table. -/
structure ObservationRow where
  deviceId : String
  sensorId : String
  quantityKind : String
  observationTime : Int
  value : Option ℚ
  valueString : Option String
  valueBoolean : Option Bool
deriving DecidableEq, Repr

/-- The `WHERE` clause of the dedup lookup: same (device, sensor, quantity
kind) tuple and `observation_time > $4` with `$4 = o.ObservationTime.Add(-1*time.Minute)`. -/
def matchesWindow (deviceId : String) (o : Observation) (r : ObservationRow) : Bool :=
  decide (r.deviceId = deviceId ∧ r.sensorId = o.sensorId ∧
    r.quantityKind = o.quantityKind ∧ o.observationTime - 60 < r.observationTime)

/-- Fold step realising `ORDER BY observation_time DESC LIMIT 1`: keep the
row with the larger observation time (on a tie, the earlier row stands in
for Postgres's unspecified choice). -/
def pickLater (acc : Option ObservationRow) (r : ObservationRow) : Option ObservationRow :=
  match acc with
  | none => some r
  | some m => if m.observationTime < r.observationTime then some r else some m

/-- The dedup lookup `SELECT ... ORDER BY observation_time DESC LIMIT 1`. -/
def latestInWindow (rows : List ObservationRow) (deviceId : String) (o : Observation) :
    Option ObservationRow :=
  (rows.filter (matchesWindow deviceId o)).foldl pickLater none

/-- `isValueEqual` (database.go): field-by-field comparison of the
`(value, valueString, valueBoolean)` triple; a field is equal when both
sides are absent or both present and equal. -/
def isValueEqual (observation : Observation) (v : Option ℚ) (vs : Option String)
    (vb : Option Bool) : Bool :=
  let eqV : Bool :=
    match v, observation.value with
    | none, none => true
    | some a, some b => decide (a = b)
    | _, _ => false
  let eqVs : Bool :=
    match vs, observation.valueString with
    | none, none => true
    | some a, some b => decide (a = b)
    | _, _ => false
  let eqVb : Bool :=
    match vb, observation.valueBoolean with
    | none, none => true
    | some a, some b => decide (a = b)
    | _, _ => false
  eqV && eqVs && eqVb

/-- The `INSERT` row built from the batch's device id and one observation. -/
def toStored (deviceId : String) (o : Observation) : ObservationRow :=
  { deviceId := deviceId
    sensorId := o.sensorId
    quantityKind := o.quantityKind
    observationTime := o.observationTime
    value := o.value
    valueString := o.valueString
    valueBoolean := o.valueBoolean }

/-- The loop body of `AddObservation`. `failAt k` injects a failure of the
k-th attempted `INSERT` (connection loss, constraint violation, context
cancellation). Both the `SELECT` and the `INSERT` run on `db.pool` — not on
`tx` — so every successful `INSERT` is committed immediately and stays
committed when a later statement fails and the function rolls back the
(empty) transaction and returns the error. The returned `Bool` is `true`
when the Go function returns a nil error. -/
def addObsLoop (failAt : Nat → Bool) (deviceId : String) :
    List Observation → List ObservationRow → Nat → List ObservationRow × Bool
  | [], rows, _ => (rows, true)
  | o :: rest, rows, k =>
    match latestInWindow rows deviceId o with
    | some r =>
      if isValueEqual o r.value r.valueString r.valueBoolean then
        addObsLoop failAt deviceId rest rows k
      else if failAt k then (rows, false)
      else addObsLoop failAt deviceId rest (rows ++ [toStored deviceId o]) (k + 1)
    | none =>
      if failAt k then (rows, false)
      else addObsLoop failAt deviceId rest (rows ++ [toStored deviceId o]) (k + 1)

/-- `AddObservation`: iterate the dedup lookup + insert over the batch. -/
def AddObservation (failAt : Nat → Bool) (rows : List ObservationRow)
    (so : SensorObservation) : List ObservationRow × Bool :=
  addObsLoop failAt so.deviceID so.observations rows 0

/-- A run in which no store statement fails. -/
def noFail : Nat → Bool := fun _ => false

/-- A purely numeric candidate observation, used to drive the dedup gate
scenarios. -/
def mkNumObs (Q S : String) (v : ℚ) (t : Int) : Observation :=
  { observationTime := t, value := some v, valueString := none,
    valueBoolean := none, quantityKind := Q, sensorId := S }

/-! ### Helper lemmas -/

lemma matchesWindow_true_iff (D : String) (o : Observation) (r : ObservationRow) :
    matchesWindow D o r = true ↔
      (r.deviceId = D ∧ r.sensorId = o.sensorId ∧ r.quantityKind = o.quantityKind ∧
        o.observationTime - 60 < r.observationTime) := by
  simp [matchesWindow]

lemma matchesWindow_false_iff (D : String) (o : Observation) (r : ObservationRow) :
    matchesWindow D o r = false ↔
      ¬(r.deviceId = D ∧ r.sensorId = o.sensorId ∧ r.quantityKind = o.quantityKind ∧
        o.observationTime - 60 < r.observationTime) := by
  simp [matchesWindow]

lemma pickLater_le (acc : Option ObservationRow) (r : ObservationRow) :
    ∃ p, pickLater acc r = some p ∧ r.observationTime ≤ p.observationTime ∧
      ∀ m, acc = some m → m.observationTime ≤ p.observationTime := by
  cases acc with
  | none => exact ⟨r, rfl, le_refl _, by simp⟩
  | some m =>
    by_cases h : m.observationTime < r.observationTime
    · refine ⟨r, by simp [pickLater, h], le_refl _, ?_⟩
      intro m' hm'
      injection hm' with e
      rw [← e]
      omega
    · refine ⟨m, by simp [pickLater, h], by omega, ?_⟩
      intro m' hm'
      injection hm' with e
      rw [← e]

lemma pickLater_eq_some {acc : Option ObservationRow} {r p : ObservationRow}
    (h : pickLater acc r = some p) : p = r ∨ acc = some p := by
  cases acc with
  | none => injection h with e; exact Or.inl e.symm
  | some m =>
    by_cases hlt : m.observationTime < r.observationTime
    · simp [pickLater, hlt] at h
      exact Or.inl h.symm
    · simp [pickLater, hlt] at h
      exact Or.inr (by rw [h])

lemma foldl_pickLater_spec (l : List ObservationRow) :
    ∀ acc res, l.foldl pickLater acc = some res →
      (res ∈ l ∨ acc = some res) ∧
      (∀ x ∈ l, x.observationTime ≤ res.observationTime) ∧
      (∀ m, acc = some m → m.observationTime ≤ res.observationTime) := by
  induction l with
  | nil =>
    intro acc res h
    simp only [List.foldl_nil] at h
    refine ⟨Or.inr h, by simp, ?_⟩
    intro m hm
    rw [hm] at h
    injection h with e
    rw [e]
  | cons r t ih =>
    intro acc res h
    simp only [List.foldl_cons] at h
    obtain ⟨hmem, hall, hacc⟩ := ih (pickLater acc r) res h
    obtain ⟨p, hp, hrp, haccp⟩ := pickLater_le acc r
    have hpres : p.observationTime ≤ res.observationTime := hacc p hp
    refine ⟨?_, ?_, ?_⟩
    · rcases hmem with hm | hm
      · exact Or.inl (List.mem_cons_of_mem _ hm)
      · rcases pickLater_eq_some hm with e | e
        · exact Or.inl (e ▸ List.mem_cons_self _ _)
        · exact Or.inr e
    · intro x hx
      rcases List.mem_cons.mp hx with e | hxt
      · rw [e]; exact le_trans hrp hpres
      · exact hall x hxt
    · intro m hm
      exact le_trans (haccp m hm) hpres

lemma foldl_pickLater_ne_none (t : List ObservationRow) :
    ∀ m, t.foldl pickLater (some m) ≠ none := by
  induction t with
  | nil => intro m h; cases h
  | cons a t ih =>
    intro m
    simp only [List.foldl_cons]
    by_cases h : m.observationTime < a.observationTime <;>
      simp [pickLater, h] <;> apply ih

lemma latestInWindow_none_iff (rows : List ObservationRow) (D : String) (o : Observation) :
    latestInWindow rows D o = none ↔ ∀ r ∈ rows, matchesWindow D o r = false := by
  unfold latestInWindow
  constructor
  · intro h r hr
    by_contra hW
    have hW' : matchesWindow D o r = true := by
      revert hW; cases matchesWindow D o r <;> simp
    have hmem : r ∈ rows.filter (matchesWindow D o) := List.mem_filter.mpr ⟨hr, hW'⟩
    cases hf : rows.filter (matchesWindow D o) with
    | nil => rw [hf] at hmem; cases hmem
    | cons a t =>
      rw [hf] at h
      simp only [List.foldl_cons] at h
      exact foldl_pickLater_ne_none t a h
  · intro h
    have hf : rows.filter (matchesWindow D o) = [] := by
      apply List.filter_eq_nil_iff.mpr
      intro a ha
      rw [h a ha]
      simp
    rw [hf]
    rfl

lemma latestInWindow_some_spec (rows : List ObservationRow) (D : String) (o : Observation)
    (r : ObservationRow) (h : latestInWindow rows D o = some r) :
    r ∈ rows ∧ matchesWindow D o r = true ∧
      ∀ x ∈ rows, matchesWindow D o x = true → x.observationTime ≤ r.observationTime := by
  unfold latestInWindow at h
  obtain ⟨hmem, hall, _⟩ := foldl_pickLater_spec _ _ _ h
  rcases hmem with hm | hm
  · obtain ⟨hr, hW⟩ := List.mem_filter.mp hm
    exact ⟨hr, hW, fun x hx hWx => hall x (List.mem_filter.mpr ⟨hx, hWx⟩)⟩
  · cases hm

lemma isValueEqual_true_iff (o : Observation) (v : Option ℚ) (vs : Option String)
    (vb : Option Bool) :
    isValueEqual o v vs vb = true ↔
      (v = o.value ∧ vs = o.valueString ∧ vb = o.valueBoolean) := by
  cases v <;> cases hov : o.value <;> cases vs <;> cases hos : o.valueString <;>
    cases vb <;> cases hob : o.valueBoolean <;>
    simp [isValueEqual, hov, hos, hob, and_assoc]

lemma latestInWindow_single {r : ObservationRow} {D : String} {o : Observation}
    (h : matchesWindow D o r = true) :
    latestInWindow [r] D o = some r := by
  unfold latestInWindow
  rw [List.filter_cons, if_pos h, List.filter_nil]
  simp [pickLater]

lemma latestInWindow_pair_second {r1 r2 : ObservationRow} {D : String} {o : Observation}
    (h1 : matchesWindow D o r1 = true) (h2 : matchesWindow D o r2 = true)
    (hlt : r1.observationTime < r2.observationTime) :
    latestInWindow [r1, r2] D o = some r2 := by
  unfold latestInWindow
  rw [List.filter_cons, if_pos h1, List.filter_cons, if_pos h2, List.filter_nil]
  simp [pickLater, hlt]

lemma addObs_single (fmt D : String) (o : Observation) (rows : List ObservationRow) :
    AddObservation noFail rows ⟨fmt, D, [o]⟩ =
      ((match latestInWindow rows D o with
        | some r =>
          if isValueEqual o r.value r.valueString r.valueBoolean then rows
          else rows ++ [toStored D o]
        | none => rows ++ [toStored D o]), true) := by
  unfold AddObservation
  cases h : latestInWindow rows D o with
  | none => simp [addObsLoop, h, noFail]
  | some r =>
    by_cases he : isValueEqual o r.value r.valueString r.valueBoolean <;>
      simp [addObsLoop, h, he, noFail]

lemma append_singleton_ne (rows : List ObservationRow) (x : ObservationRow) :
    rows ++ [x] ≠ rows := by
  intro h
  have := congrArg List.length h
  simp at this

/-- Rounding half away from zero fixes every integer. -/
lemma goRound_intCast (k : Int) : goRound (k : ℚ) = k := by
  unfold goRound
  split
  · rw [show ((k : ℚ) + 1/2) = (1/2 : ℚ) + k by ring, Int.floor_add_int]
    norm_num
  · rw [show (-(k : ℚ) + 1/2) = (1/2 : ℚ) + (-k : ℤ) by push_cast; ring,
      Int.floor_add_int]
    norm_num

/-- C1, theorem: a single candidate handed to `AddObservation` is persisted
(appended to the store) iff either no stored observation of the same
(deviceId, sensorId, quantityKind) tuple has an observation time strictly
greater than the candidate's time minus 60 seconds, or the most recent such
observation's (value, valueString, valueBoolean) triple differs from the
candidate's in at least one field (absent/present compare unequal); when
the triple compares equal field-by-field the candidate is discarded and no
error is returned. The last conjunct certifies that the row the decision is
based on is a stored in-window row of maximal observation time. -/
theorem AddObservation_dedup_iff (rows : List ObservationRow) (fmt D : String)
    (o : Observation) :
    (AddObservation noFail rows ⟨fmt, D, [o]⟩).2 = true ∧
    ((AddObservation noFail rows ⟨fmt, D, [o]⟩).1 = rows ++ [toStored D o] ↔
      ((∀ r ∈ rows, ¬(r.deviceId = D ∧ r.sensorId = o.sensorId ∧
          r.quantityKind = o.quantityKind ∧ o.observationTime - 60 < r.observationTime)) ∨
        ∃ r, latestInWindow rows D o = some r ∧
          ¬(r.value = o.value ∧ r.valueString = o.valueString ∧
            r.valueBoolean = o.valueBoolean))) ∧
    ((AddObservation noFail rows ⟨fmt, D, [o]⟩).1 = rows ↔
      ∃ r, latestInWindow rows D o = some r ∧
        (r.value = o.value ∧ r.valueString = o.valueString ∧
          r.valueBoolean = o.valueBoolean)) ∧
    (∀ r, latestInWindow rows D o = some r →
      r ∈ rows ∧ (r.deviceId = D ∧ r.sensorId = o.sensorId ∧
        r.quantityKind = o.quantityKind ∧ o.observationTime - 60 < r.observationTime) ∧
      ∀ x ∈ rows, (x.deviceId = D ∧ x.sensorId = o.sensorId ∧
          x.quantityKind = o.quantityKind ∧ o.observationTime - 60 < x.observationTime) →
        x.observationTime ≤ r.observationTime) := by
  rw [addObs_single]
  have hmax : ∀ r, latestInWindow rows D o = some r →
      r ∈ rows ∧ (r.deviceId = D ∧ r.sensorId = o.sensorId ∧
        r.quantityKind = o.quantityKind ∧ o.observationTime - 60 < r.observationTime) ∧
      ∀ x ∈ rows, (x.deviceId = D ∧ x.sensorId = o.sensorId ∧
          x.quantityKind = o.quantityKind ∧ o.observationTime - 60 < x.observationTime) →
        x.observationTime ≤ r.observationTime := by
    intro r hr
    obtain ⟨hmem, hW, hmax⟩ := latestInWindow_some_spec rows D o r hr
    exact ⟨hmem, (matchesWindow_true_iff D o r).mp hW,
      fun x hx hWx => hmax x hx ((matchesWindow_true_iff D o x).mpr hWx)⟩
  cases h : latestInWindow rows D o with
  | none =>
    refine ⟨rfl, ?_, ?_, fun r hr => nomatch hr⟩
    · simp only [true_iff]
      refine Or.inl ?_
      intro r hr
      exact (matchesWindow_false_iff D o r).mp
        ((latestInWindow_none_iff rows D o).mp h r hr)
    · constructor
      · intro hcontra
        exact absurd hcontra (append_singleton_ne rows (toStored D o))
      · rintro ⟨r, hr, -⟩
        exact nomatch hr
  | some r =>
    by_cases he : isValueEqual o r.value r.valueString r.valueBoolean
    · simp only [he, if_true]
      refine ⟨by trivial, ?_, ?_, fun x hx => hmax x (h.trans hx)⟩
      · constructor
        · intro hcontra
          exact absurd hcontra.symm (append_singleton_ne rows (toStored D o))
        · rintro (hall | ⟨r', hr', hne⟩)
          · obtain ⟨hm, hW, -⟩ := hmax r h
            exact absurd hW (hall r hm)
          · injection hr' with e
            subst e
            exact absurd ((isValueEqual_true_iff o _ _ _).mp he) hne
      · exact ⟨fun _ => ⟨r, rfl, (isValueEqual_true_iff o _ _ _).mp he⟩, fun _ => by trivial⟩
    · simp only [he, if_false]
      refine ⟨by trivial, ?_, ?_, fun x hx => hmax x (h.trans hx)⟩
      · exact ⟨fun _ => Or.inr ⟨r, rfl, fun ht =>
          he ((isValueEqual_true_iff o _ _ _).mpr ht)⟩, fun _ => by trivial⟩
      · constructor
        · intro hcontra
          exact absurd hcontra (append_singleton_ne rows (toStored D o))
        · rintro ⟨r', hr', ht⟩
          injection hr' with e
          subst e
          exact absurd ((isValueEqual_true_iff o _ _ _).mpr ht) he

/-- C1, witness: on the empty store a candidate is persisted, and an
immediate identical re-submission 30 seconds later is discarded. -/
theorem AddObservation_dedup_iff_witness :
    (AddObservation noFail []
      ⟨"rec3.1.1", "device-1", [⟨1000, some 42, none, none, "Temperature", "sensor-1"⟩]⟩).1 =
      [] ++ [toStored "device-1" ⟨1000, some 42, none, none, "Temperature", "sensor-1"⟩] ∧
    (AddObservation noFail
      [toStored "device-1" ⟨1000, some 42, none, none, "Temperature", "sensor-1"⟩]
      ⟨"rec3.1.1", "device-1", [⟨1030, some 42, none, none, "Temperature", "sensor-1"⟩]⟩).1 =
      [toStored "device-1" ⟨1000, some 42, none, none, "Temperature", "sensor-1"⟩] := by
  constructor
  · exact (AddObservation_dedup_iff [] "rec3.1.1" "device-1" _).2.1.mpr
      (Or.inl (fun r hr => absurd hr (List.not_mem_nil r)))
  · exact (AddObservation_dedup_iff _ "rec3.1.1" "device-1" _).2.2.1.mpr
      ⟨toStored "device-1" ⟨1000, some 42, none, none, "Temperature", "sensor-1"⟩,
        by decide, by decide⟩

/-- C4, theorem: the dedup gate preserves oscillation. Starting from an
empty store, submitting value 42 at time T, value 43 at T + 30s and value
42 again at T + 45s (same tuple, three `AddObservation` calls) persists all
three rows, because each candidate is compared only against the most
recent in-window stored row, which differs at its insertion time; whereas
a second value-42 candidate at T + 30s (against the store holding only the
42-at-T row) is discarded. -/
theorem AddObservation_preserves_oscillation (T : Int) (fmt D S Q : String) :
    (AddObservation noFail [] ⟨fmt, D, [mkNumObs Q S 42 T]⟩).1
        = [toStored D (mkNumObs Q S 42 T)] ∧
    (AddObservation noFail [toStored D (mkNumObs Q S 42 T)]
        ⟨fmt, D, [mkNumObs Q S 43 (T + 30)]⟩).1
        = [toStored D (mkNumObs Q S 42 T), toStored D (mkNumObs Q S 43 (T + 30))] ∧
    (AddObservation noFail
        [toStored D (mkNumObs Q S 42 T), toStored D (mkNumObs Q S 43 (T + 30))]
        ⟨fmt, D, [mkNumObs Q S 42 (T + 45)]⟩).1
        = [toStored D (mkNumObs Q S 42 T), toStored D (mkNumObs Q S 43 (T + 30)),
           toStored D (mkNumObs Q S 42 (T + 45))] ∧
    (AddObservation noFail [toStored D (mkNumObs Q S 42 T)]
        ⟨fmt, D, [mkNumObs Q S 42 (T + 30)]⟩).1
        = [toStored D (mkNumObs Q S 42 T)] := by
  have hw21 : matchesWindow D (mkNumObs Q S 43 (T + 30)) (toStored D (mkNumObs Q S 42 T))
      = true := by
    simp [matchesWindow, toStored, mkNumObs]
    omega
  have hw31 : matchesWindow D (mkNumObs Q S 42 (T + 45)) (toStored D (mkNumObs Q S 42 T))
      = true := by
    simp [matchesWindow, toStored, mkNumObs]
    omega
  have hw32 : matchesWindow D (mkNumObs Q S 42 (T + 45))
      (toStored D (mkNumObs Q S 43 (T + 30))) = true := by
    simp [matchesWindow, toStored, mkNumObs]
    omega
  have hw41 : matchesWindow D (mkNumObs Q S 42 (T + 30)) (toStored D (mkNumObs Q S 42 T))
      = true := by
    simp [matchesWindow, toStored, mkNumObs]
    omega
  have hl2 : latestInWindow [toStored D (mkNumObs Q S 42 T)] D (mkNumObs Q S 43 (T + 30))
      = some (toStored D (mkNumObs Q S 42 T)) := latestInWindow_single hw21
  have hl3 : latestInWindow
      [toStored D (mkNumObs Q S 42 T), toStored D (mkNumObs Q S 43 (T + 30))] D
      (mkNumObs Q S 42 (T + 45)) = some (toStored D (mkNumObs Q S 43 (T + 30))) :=
    latestInWindow_pair_second hw31 hw32 (by simp only [toStored, mkNumObs]; omega)
  have hl4 : latestInWindow [toStored D (mkNumObs Q S 42 T)] D (mkNumObs Q S 42 (T + 30))
      = some (toStored D (mkNumObs Q S 42 T)) := latestInWindow_single hw41
  have he2 : isValueEqual (mkNumObs Q S 43 (T + 30))
      (toStored D (mkNumObs Q S 42 T)).value (toStored D (mkNumObs Q S 42 T)).valueString
      (toStored D (mkNumObs Q S 42 T)).valueBoolean = false := by
    norm_num [isValueEqual, toStored, mkNumObs]
  have he3 : isValueEqual (mkNumObs Q S 42 (T + 45))
      (toStored D (mkNumObs Q S 43 (T + 30))).value
      (toStored D (mkNumObs Q S 43 (T + 30))).valueString
      (toStored D (mkNumObs Q S 43 (T + 30))).valueBoolean = false := by
    norm_num [isValueEqual, toStored, mkNumObs]
  have he4 : isValueEqual (mkNumObs Q S 42 (T + 30))
      (toStored D (mkNumObs Q S 42 T)).value (toStored D (mkNumObs Q S 42 T)).valueString
      (toStored D (mkNumObs Q S 42 T)).valueBoolean = true := by
    norm_num [isValueEqual, toStored, mkNumObs]
  refine ⟨?_, ?_, ?_, ?_⟩
  · rw [addObs_single]
    simp [latestInWindow]
  · rw [addObs_single]
    simp [hl2, he2]
  · rw [addObs_single]
    simp [hl3, he3]
  · rw [addObs_single]
    simp [hl4, he4]

/-- C8, theorem: the numeric normalizer `mapFloatValue` preserves absence
(`nil` in, `nil` out), is idempotent for every value and digit count
(in the exact-rational embedding of `float64`), and rounds `12.345678` at
one decimal digit to `12.3`. -/
theorem mapFloatValue_nil_and_idempotent :
    (∀ d : Nat, mapFloatValue none d = none) ∧
    (∀ (v : Option ℚ) (d : Nat), mapFloatValue (mapFloatValue v d) d = mapFloatValue v d) ∧
    mapFloatValue (some (12345678/1000000 : ℚ)) 1 = some (123/10) := by
  refine ⟨fun d => rfl, fun v d => ?_, by norm_num [mapFloatValue, goRound]⟩
  cases v with
  | none => rfl
  | some x =>
    have hu : (10 : ℚ) ^ d ≠ 0 := by positivity
    simp only [mapFloatValue, Option.some.injEq]
    rw [div_mul_cancel₀ _ hu, goRound_intCast]

/-- C5, theorem: the quantity mapper matches the vendor code
case-insensitively against the fixed lwm2m table; the air-quality code is
the single context-sensitive entry (decided by the `"17"` disambiguator);
every other known code maps to its canonical name; an unknown code passes
through unchanged. The mapper is a total function (it never errors). -/
theorem mapQuantityKind_table (c d : String) :
    (strToLower c = AirQuality →
      mapQuantityKind c d = if d = "17" then "Concentration" else "diwise:AirQuality") ∧
    (strToLower c = Conductivity → mapQuantityKind c d = "Conductivity") ∧
    (strToLower c = DigitalInput → mapQuantityKind c d = "diwise:DigitalInput") ∧
    (strToLower c = Distance → mapQuantityKind c d = "Distance") ∧
    (strToLower c = Energy → mapQuantityKind c d = "Energy") ∧
    (strToLower c = Power → mapQuantityKind c d = "Power") ∧
    (strToLower c = Presence → mapQuantityKind c d = "diwise:Presence") ∧
    (strToLower c = Pressure → mapQuantityKind c d = "Pressure") ∧
    (strToLower c = Temperature → mapQuantityKind c d = "Temperature") ∧
    (strToLower c = Watermeter → mapQuantityKind c d = "Volume") ∧
    (strToLower c = Humidity → mapQuantityKind c d = "RelativeHumidity") ∧
    (strToLower c = Illuminance → mapQuantityKind c d = "Illuminance") ∧
    (strToLower c ∉ [AirQuality, Conductivity, DigitalInput, Distance, Energy, Power,
        Presence, Pressure, Temperature, Watermeter, Humidity, Illuminance] →
      mapQuantityKind c d = c) := by
  refine ⟨?_, ?_, ?_, ?_, ?_, ?_, ?_, ?_, ?_, ?_, ?_, ?_, ?_⟩ <;>
    intro h
  case _ => unfold mapQuantityKind; rw [h]; simp +decide
  case _ => unfold mapQuantityKind; rw [h]; simp +decide
  case _ => unfold mapQuantityKind; rw [h]; simp +decide
  case _ => unfold mapQuantityKind; rw [h]; simp +decide
  case _ => unfold mapQuantityKind; rw [h]; simp +decide
  case _ => unfold mapQuantityKind; rw [h]; simp +decide
  case _ => unfold mapQuantityKind; rw [h]; simp +decide
  case _ => unfold mapQuantityKind; rw [h]; simp +decide
  case _ => unfold mapQuantityKind; rw [h]; simp +decide
  case _ => unfold mapQuantityKind; rw [h]; simp +decide
  case _ => unfold mapQuantityKind; rw [h]; simp +decide
  case _ => unfold mapQuantityKind; rw [h]; simp +decide
  case _ =>
    simp only [List.mem_cons, List.not_mem_nil, or_false, not_or] at h
    obtain ⟨h1, h2, h3, h4, h5, h6, h7, h8, h9, h10, h11, h12⟩ := h
    unfold mapQuantityKind
    simp [h1, h2, h3, h4, h5, h6, h7, h8, h9, h10, h11, h12]

/-- C2, code-bug evidence: a two-observation batch (the shape a "building"
envelope produces) in which the second `INSERT` fails. Because the
statements of `AddObservation` run on the connection pool and not on the
transaction it opens, the first observation stays committed while the
function returns an error: the store is visibly changed on the error path,
contradicting batch atomicity. -/
theorem AddObservation_partial_write_on_error :
    AddObservation (fun k => decide (k = 1)) []
      ⟨"rec3.1.1", "building:b:dev",
        [⟨0, some 10, none, none, "Energy", "dev"⟩,
         ⟨0, some 5, none, none, "Power", "dev"⟩]⟩
      = ([⟨"building:b:dev", "dev", "Energy", 0, some 10, none, none⟩], false) ∧
    ([(⟨"building:b:dev", "dev", "Energy", 0, some 10, none, none⟩ : ObservationRow)]
      ≠ ([] : List ObservationRow)) := by
  decide

/-- C3, counterexample: an envelope whose pack has fewer than two records
(here zero, and also one) makes `MapToObservation` fault with an
out-of-range index instead of returning `ok = false`: in Go the body reads
`m.Pack[0]` and `m.Pack[1]` before the rejection check. -/
theorem MapToObservation_short_pack_counterexample :
    MessageAccepted.MapToObservation ⟨"dev", []⟩ = DecodeResult.panic ∧
    MessageAccepted.MapToObservation ⟨"dev", []⟩ ≠ DecodeResult.rejected ∧
    MessageAccepted.MapToObservation
      ⟨"dev", [⟨Temperature, 0, "", "sensor-1", none, none⟩]⟩ = DecodeResult.panic := by
  exact ⟨rfl, by decide, rfl⟩

/-- C3, amended claim: an envelope whose pack has fewer than 2 records
faults (index out of range) rather than being rejected; for a pack with at
least 2 records, the envelope is rejected — no observation emitted, no
fault — exactly when the record-0 sensor id string is empty or the
resolved quantity kind is empty. -/
theorem MapToObservation_reject_characterisation (m : MessageAccepted) :
    (m.pack.length < 2 → m.MapToObservation = DecodeResult.panic) ∧
    (∀ r0 r1 rest, m.pack = r0 :: r1 :: rest →
      (m.MapToObservation = DecodeResult.rejected ↔
        (r0.stringValue = "" ∨ mapQuantityKind r0.baseName r1.name = "")) ∧
      m.MapToObservation ≠ DecodeResult.panic) := by
  constructor
  · intro hlen
    unfold MessageAccepted.MapToObservation
    cases hm : m.pack with
    | nil => rfl
    | cons a t =>
      cases t with
      | nil => rfl
      | cons b u =>
        rw [hm] at hlen
        simp only [List.length_cons] at hlen
        omega
  · intro r0 r1 rest hp
    unfold MessageAccepted.MapToObservation
    rw [hp]
    by_cases hrej : r0.stringValue = "" ∨ mapQuantityKind r0.baseName r1.name = ""
    · simp [hrej]
    · simp [hrej]

/-- C3, witness: a two-record pack with an empty record-0 sensor id is
rejected without fault. -/
theorem MapToObservation_reject_characterisation_witness :
    MessageAccepted.MapToObservation ⟨"dev", [⟨"", 0, "", "", none, none⟩,
      ⟨"", 0, "", "", none, none⟩]⟩ = DecodeResult.rejected := by
  exact ((MapToObservation_reject_characterisation _).2 _ _ [] rfl).1.mpr (Or.inl rfl)

/-- C6, theorem: a `FunctionUpdated` envelope tagged "building" (with its
building variant populated, as the data model requires) emits exactly two
observations — quantity kind "Energy" with the variant's energy value and
quantity kind "Power" with the variant's power value — and both carry the
single wall-clock timestamp sampled once for the envelope. -/
theorem FunctionUpdated_building_two_observations (now : Int) (m : FunctionUpdated)
    (b : BuildingData) (ht : m.ftype = "building") (hb : m.building = some b) :
    FunctionUpdated.MapToObservation now m = DecodeResult.accepted
      { format := "rec3.1.1"
        deviceID := m.ftype ++ ":" ++ m.subType ++ ":" ++ m.id
        observations := [
          { observationTime := now, value := some b.energy, valueString := none,
            valueBoolean := none, quantityKind := "Energy", sensorId := m.id },
          { observationTime := now, value := some b.power, valueString := none,
            valueBoolean := none, quantityKind := "Power", sensorId := m.id }] } ∧
    ∀ so, FunctionUpdated.MapToObservation now m = DecodeResult.accepted so →
      so.observations.map Observation.observationTime = [now, now] := by
  have h1 : FunctionUpdated.MapToObservation now m = DecodeResult.accepted
      { format := "rec3.1.1"
        deviceID := m.ftype ++ ":" ++ m.subType ++ ":" ++ m.id
        observations := [
          { observationTime := now, value := some b.energy, valueString := none,
            valueBoolean := none, quantityKind := "Energy", sensorId := m.id },
          { observationTime := now, value := some b.power, valueString := none,
            valueBoolean := none, quantityKind := "Power", sensorId := m.id }] } := by
    unfold FunctionUpdated.MapToObservation
    simp [ht, hb]
  refine ⟨h1, ?_⟩
  intro so hso
  rw [h1] at hso
  injection hso with e
  rw [← e]
  rfl

/-- C6, witness: the theorem at a concrete building envelope. -/
theorem FunctionUpdated_building_two_observations_witness :
    FunctionUpdated.MapToObservation 1700000000
      ⟨"b-1", "building", "main", none, none, none, none, none, some ⟨10, 5⟩⟩
      = DecodeResult.accepted
        { format := "rec3.1.1"
          deviceID := "building" ++ ":" ++ "main" ++ ":" ++ "b-1"
          observations := [
            { observationTime := 1700000000, value := some 10, valueString := none,
              valueBoolean := none, quantityKind := "Energy", sensorId := "b-1" },
            { observationTime := 1700000000, value := some 5, valueString := none,
              valueBoolean := none, quantityKind := "Power", sensorId := "b-1" }] } := by
  exact (FunctionUpdated_building_two_observations 1700000000
    ⟨"b-1", "building", "main", none, none, none, none, none, some ⟨10, 5⟩⟩
    ⟨10, 5⟩ rfl rfl).1

/-- C7, theorem: in decoder A, an accepted observation's numeric value is
the record-1 value normalized at 1 decimal digit when the resolved
quantity kind is exactly "Temperature" and at 2 digits otherwise; and an
absent record-1 numeric value is not an error — the envelope is still
accepted (when the rejection conditions do not hold) with an absent value
field. -/
theorem MapToObservation_rounding (m : MessageAccepted) (r0 r1 : SenmlRecord)
    (rest : List SenmlRecord) (hp : m.pack = r0 :: r1 :: rest) :
    (∀ so, m.MapToObservation = DecodeResult.accepted so →
      so.observations.map Observation.value =
        [mapFloatValue r1.value
          (if mapQuantityKind r0.baseName r1.name = "Temperature" then 1 else 2)]) ∧
    (r1.value = none → r0.stringValue ≠ "" → mapQuantityKind r0.baseName r1.name ≠ "" →
      ∃ so, m.MapToObservation = DecodeResult.accepted so ∧
        so.observations.map Observation.value = [none]) := by
  constructor
  · intro so hso
    unfold MessageAccepted.MapToObservation at hso
    rw [hp] at hso
    by_cases hrej : r0.stringValue = "" ∨ mapQuantityKind r0.baseName r1.name = ""
    · simp [hrej] at hso
    · simp [hrej] at hso
      rw [← hso]
      simp [apply_ite (mapFloatValue r1.value)]
  · intro hv h0 hq
    have hrej : ¬(r0.stringValue = "" ∨ mapQuantityKind r0.baseName r1.name = "") := by
      push_neg
      exact ⟨h0, hq⟩
    have hacc : m.MapToObservation = DecodeResult.accepted
        { format := "rec3.1.1", deviceID := m.sensorID,
          observations := [{
            observationTime := mapTime r0.baseTime,
            value := if mapQuantityKind r0.baseName r1.name = "Temperature"
              then mapFloatValue r1.value 1 else mapFloatValue r1.value 2,
            valueString := mapValueString r1.stringValue,
            valueBoolean := r1.boolValue,
            quantityKind := mapQuantityKind r0.baseName r1.name,
            sensorId := r0.stringValue }] } := by
      unfold MessageAccepted.MapToObservation
      rw [hp]
      simp [hrej]
    refine ⟨_, hacc, ?_⟩
    simp [hv, mapFloatValue]

/-- C7, witness: a two-record temperature envelope with no numeric value
in record 1 is accepted with an absent value field. -/
theorem MapToObservation_rounding_witness :
    ∃ so, MessageAccepted.MapToObservation
      ⟨"dev-1", [⟨Temperature, 1700000000, "", "sensor-1", none, none⟩,
        ⟨"", 0, "5700", "", none, none⟩]⟩ = DecodeResult.accepted so ∧
      so.observations.map Observation.value = [none] := by
  exact (MapToObservation_rounding _ _ _ [] rfl).2 rfl (by decide) (by decide)

/-- C9, theorem: decoder A never validates the envelope's top-level
SensorID: with an empty top-level SensorID but a non-empty record-0 sensor
id and non-empty resolved quantity kind, the envelope is accepted and the
emitted SensorObservation's DeviceID is the empty string. -/
theorem MapToObservation_deviceID_unvalidated (m : MessageAccepted) (r0 r1 : SenmlRecord)
    (rest : List SenmlRecord) (hp : m.pack = r0 :: r1 :: rest) (hs : m.sensorID = "")
    (h0 : r0.stringValue ≠ "") (hq : mapQuantityKind r0.baseName r1.name ≠ "") :
    ∃ so, m.MapToObservation = DecodeResult.accepted so ∧ so.deviceID = "" := by
  have hrej : ¬(r0.stringValue = "" ∨ mapQuantityKind r0.baseName r1.name = "") := by
    push_neg
    exact ⟨h0, hq⟩
  have hacc : m.MapToObservation = DecodeResult.accepted
      { format := "rec3.1.1", deviceID := m.sensorID,
        observations := [{
          observationTime := mapTime r0.baseTime,
          value := if mapQuantityKind r0.baseName r1.name = "Temperature"
            then mapFloatValue r1.value 1 else mapFloatValue r1.value 2,
          valueString := mapValueString r1.stringValue,
          valueBoolean := r1.boolValue,
          quantityKind := mapQuantityKind r0.baseName r1.name,
          sensorId := r0.stringValue }] } := by
    unfold MessageAccepted.MapToObservation
    rw [hp]
    simp [hrej]
  exact ⟨_, hacc, by simpa using hs⟩

/-- C9, witness: a concrete envelope with empty top-level SensorID is
accepted with an empty DeviceID. -/
theorem MapToObservation_deviceID_unvalidated_witness :
    ∃ so, MessageAccepted.MapToObservation
      ⟨"", [⟨Temperature, 0, "", "sensor-1", none, none⟩,
        ⟨"", 0, "", "", some 21, none⟩]⟩ = DecodeResult.accepted so ∧ so.deviceID = "" := by
  exact MapToObservation_deviceID_unvalidated _ _ _ [] rfl rfl (by decide) (by decide)

/-- C10, theorem: decoder B applies decimal rounding only in the
"waterquality" variant (temperature at 1 digit, via the normalizer); the
numeric values of the "building", "counter", "level" and "timer" variants
are emitted exactly as carried by the envelope, unrounded. -/
theorem FunctionUpdated_rounding_only_waterquality (now : Int) (m : FunctionUpdated) :
    (∀ b, m.ftype = "building" → m.building = some b →
      (FunctionUpdated.MapToObservation now m).emittedValues
        = some [some b.energy, some b.power]) ∧
    (∀ c, m.ftype = "counter" → m.counter = some c →
      (FunctionUpdated.MapToObservation now m).emittedValues
        = some [some ((c.counter : ℚ))]) ∧
    (∀ l, m.ftype = "level" → m.level = some l →
      (FunctionUpdated.MapToObservation now m).emittedValues
        = some [some l.current]) ∧
    (∀ t dur et, m.ftype = "timer" → m.timer = some t → t.duration = some dur →
      t.endTime = some et →
      (FunctionUpdated.MapToObservation now m).emittedValues
        = some [some ((dur : ℚ) / 1000000000)]) ∧
    (∀ w, m.ftype = "waterquality" → m.waterQuality = some w →
      (FunctionUpdated.MapToObservation now m).emittedValues
        = some [mapFloatValue (some w.temperature) 1]) := by
  refine ⟨?_, ?_, ?_, ?_, ?_⟩
  · intro b ht hb
    unfold FunctionUpdated.MapToObservation
    simp +decide [ht, hb, DecodeResult.emittedValues]
  · intro c ht hc
    unfold FunctionUpdated.MapToObservation
    simp +decide [ht, hc, DecodeResult.emittedValues]
  · intro l ht hl
    unfold FunctionUpdated.MapToObservation
    simp +decide [ht, hl, DecodeResult.emittedValues]
  · intro t dur et ht htm hdur het
    unfold FunctionUpdated.MapToObservation
    simp +decide [ht, htm, hdur, het, DecodeResult.emittedValues]
  · intro w ht hw
    unfold FunctionUpdated.MapToObservation
    simp +decide [ht, hw, DecodeResult.emittedValues]

/-- C10, witness: a "level" envelope carrying 12.345678 emits exactly
12.345678 — no rounding. -/
theorem FunctionUpdated_rounding_only_waterquality_witness :
    (FunctionUpdated.MapToObservation 0
      ⟨"l-1", "level", "sub", none, some ⟨12345678/1000000, none, none⟩,
        none, none, none, none⟩).emittedValues
      = some [some (12345678/1000000 : ℚ)] := by
  exact (FunctionUpdated_rounding_only_waterquality 0
    ⟨"l-1", "level", "sub", none, some ⟨12345678/1000000, none, none⟩,
      none, none, none, none⟩).2.2.1 ⟨12345678/1000000, none, none⟩ rfl rfl

/-- C5, witness: the theorem instantiated at the air-quality code (upper
case, both disambiguator outcomes) and at an unknown vendor code. -/
theorem mapQuantityKind_table_witness :
    mapQuantityKind "URN:OMA:LWM2M:EXT:3428" "17" = "Concentration" ∧
    mapQuantityKind "URN:OMA:LWM2M:EXT:3428" "5700" = "diwise:AirQuality" ∧
    mapQuantityKind "vendor:custom:code" "17" = "vendor:custom:code" := by
  refine ⟨?_, ?_, ?_⟩
  · have h := (mapQuantityKind_table "URN:OMA:LWM2M:EXT:3428" "17").1 (by decide)
    simpa using h
  · have h := (mapQuantityKind_table "URN:OMA:LWM2M:EXT:3428" "5700").1 (by decide)
    simpa using h
  · exact (mapQuantityKind_table "vendor:custom:code" "17").2.2.2.2.2.2.2.2.2.2.2.2
      (by decide)

end ApiRec
